import Mathlib

/-!
Verification of the mood_tracker backend (trial gating, sentiment analysis,
mood aggregation, payment initialization and verification).

The Lean definitions below are shallow embeddings of the Python functions in
`src/backend/`:
* `check_user_trial_status` embeds `Database.check_user_trial_status`
  (`database.py`), taking the fetched row (days_since_trial, is_premium,
  premium_expires_at) as input.
* `analyze_emotion` embeds `SentimentAnalyzer.analyze_emotion`
  (`sentiment_analyzer.py`) over an abstract upstream HTTP outcome.
* `get_mood_summary` embeds `SentimentAnalyzer.get_mood_summary`.
* `init_payment` and `verify_payment` embed the `initialize_payment` and
  `verify_payment` Flask handlers (`app.py`), with the database modelled as
  explicit lists of rows, the gateway as a function argument, and `NOW()` /
  `datetime.utcnow()` as an explicit rational timestamp measured in days
  (so `timedelta(days=n)` is addition of `n`).
-/

namespace MoodTracker

/-! ## Trial gate (`Database.check_user_trial_status`) -/

/-- The row fetched by the trial-status query:
`SELECT DATEDIFF(NOW(), trial_start_date) as days_since_trial, is_premium,
premium_expires_at FROM users WHERE id = %s`. -/
structure TrialRow where
  days_since_trial : Int
  is_premium : Bool
  premium_expires_at : Option ℚ
deriving DecidableEq

/-- `Database.check_user_trial_status`: with a fetched row, returns
`days_since_trial <= 14 or is_premium`; with no row, returns `False`. -/
def check_user_trial_status (result : Option TrialRow) : Bool :=
  match result with
  | some u => decide (u.days_since_trial ≤ 14) || u.is_premium
  | none => false

/-! ## Emotion classification (`SentimentAnalyzer`) -/

/-- The emotion dict built by `analyze_emotion` / `_get_default_sentiment`. -/
structure EmotionScores where
  happiness : ℚ
  sadness : ℚ
  anger : ℚ
  fear : ℚ
  surprise : ℚ
  disgust : ℚ
  overall_sentiment : String
  confidence : ℚ
deriving DecidableEq

/-- `SentimentAnalyzer._get_default_sentiment`. -/
def get_default_sentiment : EmotionScores :=
  { happiness := 1/2, sadness := 1/10, anger := 1/10, fear := 1/10,
    surprise := 1/10, disgust := 1/10,
    overall_sentiment := "neutral", confidence := 1/2 }

/-- Loop state of the `for emotion in emotions` loop in `analyze_emotion`:
the partially built `emotion_scores` dict (each channel absent until set),
`overall_sentiment` and `max_score`. -/
structure EmotionAcc where
  happiness : Option ℚ
  sadness : Option ℚ
  anger : Option ℚ
  fear : Option ℚ
  surprise : Option ℚ
  disgust : Option ℚ
  overall_sentiment : String
  max_score : ℚ
deriving DecidableEq

/-- Python's `str.lower()` as used in `emotion['label'].lower()`: lowercase
every character. -/
def lowerStr (s : String) : String := String.mk (s.data.map Char.toLower)

/-- The polarity branch of the loop body: `joy`/`happiness` → positive;
`sadness`/`fear`/`anger`/`disgust` → negative; anything else → neutral.
The argument is the already-lowercased label. -/
def polarity (label : String) : String :=
  if label = "joy" ∨ label = "happiness" then "positive"
  else if label = "sadness" ∨ label = "fear" ∨ label = "anger" ∨ label = "disgust" then "negative"
  else "neutral"

/-- The `Map emotion labels to our database fields` chain of the loop body:
set the channel named by the (lowercased) label; unrecognized labels are
dropped. -/
def channelUpdate (acc : EmotionAcc) (label : String) (score : ℚ) : EmotionAcc :=
  if label = "joy" ∨ label = "happiness" then { acc with happiness := some score }
  else if label = "sadness" then { acc with sadness := some score }
  else if label = "anger" then { acc with anger := some score }
  else if label = "fear" then { acc with fear := some score }
  else if label = "surprise" then { acc with surprise := some score }
  else if label = "disgust" then { acc with disgust := some score }
  else acc

/-- One iteration of the `for emotion in emotions` loop: map the label to a
channel, then update the running maximum and the overall sentiment when
`score > max_score`. -/
def emotionStep (acc : EmotionAcc) (e : String × ℚ) : EmotionAcc :=
  let label := lowerStr e.1
  let score := e.2
  let acc1 := channelUpdate acc label score
  if score > acc1.max_score then
    { acc1 with max_score := score, overall_sentiment := polarity label }
  else acc1

/-- The body of the `if isinstance(results, list) and len(results) > 0`
branch of `analyze_emotion`, applied to `emotions = results[0]` as a list of
(label, score) pairs: run the loop from the empty dict, `"neutral"`, `0`,
then `setdefault` every channel to `0` and attach sentiment/confidence. -/
def processEmotions (emotions : List (String × ℚ)) : EmotionScores :=
  let acc := emotions.foldl emotionStep
    { happiness := none, sadness := none, anger := none, fear := none,
      surprise := none, disgust := none,
      overall_sentiment := "neutral", max_score := 0 }
  { happiness := acc.happiness.getD 0, sadness := acc.sadness.getD 0,
    anger := acc.anger.getD 0, fear := acc.fear.getD 0,
    surprise := acc.surprise.getD 0, disgust := acc.disgust.getD 0,
    overall_sentiment := acc.overall_sentiment, confidence := acc.max_score }

/-- Shape of the payload of a 200 response, as `analyze_emotion` probes it:
`invalidJson`: `response.json()` raises; `badItems`: the JSON is a non-empty
list but iterating `results[0]` as label/score dicts raises;
`notNonEmptyList`: valid JSON that fails
`isinstance(results, list) and len(results) > 0`;
`emotions`: `results[0]` is a list of (label, score) pairs. -/
inductive HFPayload where
  | invalidJson : HFPayload
  | badItems : HFPayload
  | notNonEmptyList : HFPayload
  | emotions (es : List (String × ℚ)) : HFPayload
deriving DecidableEq

/-- Outcome of `requests.post` in `analyze_emotion`: `raised` when the call
(or anything else inside the `try`) raises, else a status code and payload. -/
inductive HFResponse where
  | raised : HFResponse
  | ok (status : Nat) (payload : HFPayload) : HFResponse
deriving DecidableEq

/-- `SentimentAnalyzer.analyze_emotion`: non-200 responses and raised
exceptions return `_get_default_sentiment()`; a 200 response whose JSON
fails the `isinstance(results, list) and len(results) > 0` check falls off
the end of the `try` block, so Python returns `None`; a 200 response with
extractable (label, score) pairs is folded by the loop. -/
def analyze_emotion (response : HFResponse) : Option EmotionScores :=
  match response with
  | .raised => some get_default_sentiment
  | .ok status payload =>
    if status = 200 then
      match payload with
      | .invalidJson => some get_default_sentiment
      | .badItems => some get_default_sentiment
      | .notNonEmptyList => none
      | .emotions es => some (processEmotions es)
    else some get_default_sentiment

/-! ## C1: trial gate -/

/-- C1: the trial gate returns true iff `days_since_trial ≤ 14` or the user
is premium; in particular it is true for every `days_since_trial` in
`{0, ..., 14}`, false at `15` or more for a non-premium user, and
independent of the stored premium-expiry value. -/
theorem check_user_trial_status_spec
    (d : Int) (prem : Bool) (pu pu' : Option ℚ) :
    (check_user_trial_status (some ⟨d, prem, pu⟩) = true ↔ (d ≤ 14 ∨ prem = true))
    ∧ (0 ≤ d → d ≤ 14 → check_user_trial_status (some ⟨d, prem, pu⟩) = true)
    ∧ (15 ≤ d → prem = false → check_user_trial_status (some ⟨d, prem, pu⟩) = false)
    ∧ check_user_trial_status (some ⟨d, prem, pu⟩)
        = check_user_trial_status (some ⟨d, prem, pu'⟩) := by
  refine ⟨?_, ?_, ?_, ?_⟩
  · simp [check_user_trial_status]
  · intro _ h14
    simp [check_user_trial_status, h14]
  · intro h15 hprem
    have : ¬ (d ≤ 14) := by omega
    simp [check_user_trial_status, this, hprem]
  · simp [check_user_trial_status]

/-- Concrete instances of C1: exactly 14 days is active, 15 days without
premium is inactive whatever the stored expiry. -/
theorem check_user_trial_status_spec_witness :
    check_user_trial_status (some ⟨14, false, none⟩) = true
    ∧ check_user_trial_status (some ⟨15, false, some 99⟩) = false :=
  ⟨(check_user_trial_status_spec 14 false none none).2.1 (by decide) (by decide),
   (check_user_trial_status_spec 15 false (some 99) none).2.2.1 (by decide) rfl⟩

/-! ## C3: classifier failure fallback -/

/-- C3 counterexample: a 200 response whose payload is valid JSON but not a
non-empty list does not yield the default vector — `analyze_emotion` falls
off the end of its `try` block and returns `None`. -/
theorem analyze_emotion_malformed_200_not_default :
    analyze_emotion (.ok 200 .notNonEmptyList) = none
    ∧ analyze_emotion (.ok 200 .notNonEmptyList) ≠ some get_default_sentiment := by
  constructor
  · rfl
  · simp [analyze_emotion]

/-- C3 (amended): a raised exception (transport error, invalid JSON body,
or malformed result items) and any non-200 response yield exactly the fixed
default vector; but a 200 response whose JSON parses and fails the
non-empty-list check returns no result at all (`None`). -/
theorem analyze_emotion_failure_spec (s : Nat) (p : HFPayload) :
    analyze_emotion .raised = some get_default_sentiment
    ∧ (s ≠ 200 → analyze_emotion (.ok s p) = some get_default_sentiment)
    ∧ analyze_emotion (.ok 200 .invalidJson) = some get_default_sentiment
    ∧ analyze_emotion (.ok 200 .badItems) = some get_default_sentiment
    ∧ analyze_emotion (.ok 200 .notNonEmptyList) = none
    ∧ get_default_sentiment =
        { happiness := 1/2, sadness := 1/10, anger := 1/10, fear := 1/10,
          surprise := 1/10, disgust := 1/10,
          overall_sentiment := "neutral", confidence := 1/2 } := by
  refine ⟨rfl, ?_, rfl, rfl, rfl, rfl⟩
  intro hs
  simp [analyze_emotion, hs]

/-- Concrete instance of C3 (amended): a 500 response falls back to the
default vector. -/
theorem analyze_emotion_failure_spec_witness :
    analyze_emotion (.ok 500 .invalidJson) = some get_default_sentiment :=
  (analyze_emotion_failure_spec 500 .invalidJson).2.1 (by decide)

/-! ## C8: confidence and overall sentiment from the top-scoring label -/

theorem channelUpdate_max_score (acc : EmotionAcc) (label : String) (score : ℚ) :
    (channelUpdate acc label score).max_score = acc.max_score := by
  unfold channelUpdate
  split_ifs <;> rfl

theorem channelUpdate_overall (acc : EmotionAcc) (label : String) (score : ℚ) :
    (channelUpdate acc label score).overall_sentiment = acc.overall_sentiment := by
  unfold channelUpdate
  split_ifs <;> rfl

theorem emotionStep_max_score (acc : EmotionAcc) (e : String × ℚ) :
    (emotionStep acc e).max_score = max acc.max_score e.2 := by
  simp only [emotionStep, channelUpdate_max_score]
  rcases lt_or_le acc.max_score e.2 with h | h
  · rw [if_pos h]
    exact (max_eq_right h.le).symm
  · rw [if_neg (not_lt.mpr h)]
    rw [channelUpdate_max_score]
    exact (max_eq_left h).symm

theorem emotionStep_overall_of_le (acc : EmotionAcc) (e : String × ℚ)
    (h : e.2 ≤ acc.max_score) :
    (emotionStep acc e).overall_sentiment = acc.overall_sentiment := by
  simp only [emotionStep, channelUpdate_max_score]
  rw [if_neg (not_lt.mpr h)]
  exact channelUpdate_overall ..

theorem emotionStep_overall_of_gt (acc : EmotionAcc) (e : String × ℚ)
    (h : acc.max_score < e.2) :
    (emotionStep acc e).overall_sentiment = polarity (lowerStr e.1) := by
  simp only [emotionStep, channelUpdate_max_score]
  rw [if_pos h]

/-- Once the running maximum weakly dominates the rest of the list, neither
the maximum nor the overall sentiment changes. -/
theorem foldl_emotionStep_no_new_max (t : List (String × ℚ)) (acc : EmotionAcc)
    (h : ∀ q ∈ t, q.2 ≤ acc.max_score) :
    (t.foldl emotionStep acc).overall_sentiment = acc.overall_sentiment
    ∧ (t.foldl emotionStep acc).max_score = acc.max_score := by
  induction t generalizing acc with
  | nil => exact ⟨rfl, rfl⟩
  | cons e t ih =>
    have he : e.2 ≤ acc.max_score := h e (List.mem_cons_self e t)
    have hmax : (emotionStep acc e).max_score = acc.max_score := by
      rw [emotionStep_max_score]
      exact max_eq_left he
    have hov : (emotionStep acc e).overall_sentiment = acc.overall_sentiment :=
      emotionStep_overall_of_le acc e he
    have ht : ∀ q ∈ t, q.2 ≤ (emotionStep acc e).max_score := by
      intro q hq
      rw [hmax]
      exact h q (List.mem_cons_of_mem e hq)
    have := ih (emotionStep acc e) ht
    rw [List.foldl_cons]
    exact ⟨this.1.trans hov, this.2.trans hmax⟩

/-- If `p` strictly beats the starting maximum and is the unique maximal
element of the list, the loop ends with `p`'s score as the maximum and `p`'s
polarity as the overall sentiment. -/
theorem foldl_emotionStep_argmax (es : List (String × ℚ)) (acc : EmotionAcc)
    (p : String × ℚ) (hp : p ∈ es) (hgt : acc.max_score < p.2)
    (hub : ∀ q ∈ es, q.2 ≤ p.2) (huniq : ∀ q ∈ es, q.2 = p.2 → q = p) :
    (es.foldl emotionStep acc).overall_sentiment = polarity (lowerStr p.1)
    ∧ (es.foldl emotionStep acc).max_score = p.2 := by
  induction es generalizing acc with
  | nil => cases hp
  | cons e t ih =>
    rw [List.foldl_cons]
    have he : e.2 ≤ p.2 := hub e (List.mem_cons_self e t)
    rcases eq_or_lt_of_le he with heq | hlt
    · have hep : e = p := huniq e (List.mem_cons_self e t) heq
      subst hep
      have hmax : (emotionStep acc e).max_score = e.2 := by
        rw [emotionStep_max_score]
        exact max_eq_right (heq ▸ hgt).le
      have hov : (emotionStep acc e).overall_sentiment = polarity (lowerStr e.1) :=
        emotionStep_overall_of_gt acc e (heq ▸ hgt)
      have ht : ∀ q ∈ t, q.2 ≤ (emotionStep acc e).max_score := by
        intro q hq
        rw [hmax, ← heq]
        exact hub q (List.mem_cons_of_mem e hq)
      have hrest := foldl_emotionStep_no_new_max t (emotionStep acc e) ht
      exact ⟨hrest.1.trans hov, hrest.2.trans (hmax.trans heq)⟩
    · have hpt : p ∈ t := by
        rcases List.mem_cons.mp hp with h | h
        · subst h
          exact absurd hlt (lt_irrefl _)
        · exact h
      have hgt' : (emotionStep acc e).max_score < p.2 := by
        rw [emotionStep_max_score]
        exact max_lt hgt hlt
      exact ih (emotionStep acc e) hpt hgt'
        (fun q hq => hub q (List.mem_cons_of_mem e hq))
        (fun q hq hq2 => huniq q (List.mem_cons_of_mem e hq) hq2)

/-- C8: for a successfully parsed classifier response whose (label, score)
pairs have a unique strictly-greatest positive score at pair `p` (labels,
including unrecognized ones, all count), `analyze_emotion` returns a result
whose `confidence` is exactly `p`'s score — the maximum raw score over all
pairs — and whose `overall_sentiment` is the polarity of that single
globally highest-scoring label. -/
theorem analyze_emotion_top_label_spec (es : List (String × ℚ))
    (p : String × ℚ) (hp : p ∈ es) (hpos : 0 < p.2)
    (hub : ∀ q ∈ es, q.2 ≤ p.2) (huniq : ∀ q ∈ es, q.2 = p.2 → q = p) :
    analyze_emotion (.ok 200 (.emotions es)) = some (processEmotions es)
    ∧ (processEmotions es).confidence = p.2
    ∧ (∀ q ∈ es, q.2 ≤ (processEmotions es).confidence)
    ∧ (processEmotions es).overall_sentiment = polarity (lowerStr p.1) := by
  have h := foldl_emotionStep_argmax es
    { happiness := none, sadness := none, anger := none, fear := none,
      surprise := none, disgust := none,
      overall_sentiment := "neutral", max_score := 0 }
    p hp hpos hub huniq
  refine ⟨rfl, ?_, ?_, ?_⟩
  · exact h.2
  · intro q hq
    have : (processEmotions es).confidence = p.2 := h.2
    rw [this]
    exact hub q hq
  · exact h.1

/-- Concrete instance of C8: with "JOY" scoring 3 and "sadness" scoring 1,
the confidence is 3 and the overall sentiment is the polarity of the
lowercased top label, i.e. "positive". -/
theorem analyze_emotion_top_label_spec_witness :
    (processEmotions [("JOY", 3), ("sadness", 1)]).confidence = 3
    ∧ (processEmotions [("JOY", 3), ("sadness", 1)]).overall_sentiment
        = polarity (lowerStr "JOY")
    ∧ polarity (lowerStr "JOY") = "positive" :=
  ⟨(analyze_emotion_top_label_spec [("JOY", 3), ("sadness", 1)] ("JOY", 3)
      (by decide) (by decide) (by decide) (by decide)).2.1,
   (analyze_emotion_top_label_spec [("JOY", 3), ("sadness", 1)] ("JOY", 3)
      (by decide) (by decide) (by decide) (by decide)).2.2.2,
   by decide⟩

/-! ## Mood aggregation (`SentimentAnalyzer.get_mood_summary`) -/

/-- One row of `db.get_user_entries`: a journal entry LEFT JOINed with its
mood analysis, so every score (and the sentiment label) is nullable. -/
structure EntryRow where
  happiness_score : Option ℚ
  sadness_score : Option ℚ
  anger_score : Option ℚ
  fear_score : Option ℚ
  surprise_score : Option ℚ
  disgust_score : Option ℚ
  overall_sentiment : Option String
deriving DecidableEq

/-- One `if entry.get(key): total += float(entry[key])` statement of the
loop: Python adds only when the key holds a truthy value (`None` and `0.0`
are falsy and skipped). -/
def addScore (total : ℚ) (score : Option ℚ) : ℚ :=
  match score with
  | none => total
  | some v => if v = 0 then total else total + v

/-- The `mood_totals` dict. -/
structure MoodTotals where
  happiness : ℚ
  sadness : ℚ
  anger : ℚ
  fear : ℚ
  surprise : ℚ
  disgust : ℚ
deriving DecidableEq

/-- The score-accumulating part of the `for entry in entries_with_sentiment`
loop body. -/
def moodStep (t : MoodTotals) (e : EntryRow) : MoodTotals :=
  { happiness := addScore t.happiness e.happiness_score,
    sadness := addScore t.sadness e.sadness_score,
    anger := addScore t.anger e.anger_score,
    fear := addScore t.fear e.fear_score,
    surprise := addScore t.surprise e.surprise_score,
    disgust := addScore t.disgust e.disgust_score }

/-- `sentiment_counts[sentiment] = sentiment_counts.get(sentiment, 0) + 1`:
increment an existing key or append a new one (Python dicts keep insertion
order; the key can be a string or `None` from the LEFT JOIN). -/
def bumpCount : List (Option String × Nat) → Option String → List (Option String × Nat)
  | [], s => [(s, 1)]
  | (k, n) :: rest, s =>
    if k = s then (k, n + 1) :: rest else (k, n) :: bumpCount rest s

/-- The value returned by `get_mood_summary` when the entry list is
non-empty. -/
structure MoodAverages where
  happiness : ℚ
  sadness : ℚ
  anger : ℚ
  fear : ℚ
  surprise : ℚ
  disgust : ℚ
deriving DecidableEq

structure MoodSummary where
  mood_averages : MoodAverages
  sentiment_distribution : List (Option String × Nat)
  total_entries : Nat
deriving DecidableEq

/-- `SentimentAnalyzer.get_mood_summary`: `None` on an empty list, else
per-channel totals accumulated by the loop and divided by the entry count,
plus the sentiment tally. -/
def get_mood_summary (entries : List EntryRow) : Option MoodSummary :=
  if entries = [] then none
  else
    let total_entries := entries.length
    let totals := entries.foldl moodStep ⟨0, 0, 0, 0, 0, 0⟩
    let counts := entries.foldl (fun c e => bumpCount c e.overall_sentiment)
      [(some "positive", 0), (some "negative", 0), (some "neutral", 0)]
    let mood_averages : MoodAverages :=
      { happiness := totals.happiness / (total_entries : ℚ),
        sadness := totals.sadness / (total_entries : ℚ),
        anger := totals.anger / (total_entries : ℚ),
        fear := totals.fear / (total_entries : ℚ),
        surprise := totals.surprise / (total_entries : ℚ),
        disgust := totals.disgust / (total_entries : ℚ) }
    some { mood_averages := mood_averages,
           sentiment_distribution := counts,
           total_entries := total_entries }

/-- An entry with every channel score doubled (for the linearity clause of
C6). -/
def doubleEntry (e : EntryRow) : EntryRow :=
  { happiness_score := e.happiness_score.map (fun v => 2 * v),
    sadness_score := e.sadness_score.map (fun v => 2 * v),
    anger_score := e.anger_score.map (fun v => 2 * v),
    fear_score := e.fear_score.map (fun v => 2 * v),
    surprise_score := e.surprise_score.map (fun v => 2 * v),
    disgust_score := e.disgust_score.map (fun v => 2 * v),
    overall_sentiment := e.overall_sentiment }

/-- The per-channel sum with a missing score contributing `0`. -/
def channelSum (entries : List EntryRow) (g : EntryRow → Option ℚ) : ℚ :=
  (entries.map (fun e => (g e).getD 0)).sum

theorem addScore_eq (total : ℚ) (score : Option ℚ) :
    addScore total score = total + score.getD 0 := by
  cases score with
  | none => simp [addScore]
  | some v =>
    simp only [addScore, Option.getD_some]
    split_ifs with h
    · simp [h]
    · rfl

theorem foldl_moodStep_field (f : MoodTotals → ℚ) (g : EntryRow → Option ℚ)
    (hf : ∀ t e, f (moodStep t e) = f t + (g e).getD 0)
    (es : List EntryRow) (t : MoodTotals) :
    f (es.foldl moodStep t) = f t + channelSum es g := by
  induction es generalizing t with
  | nil => simp [channelSum]
  | cons e es ih =>
    rw [List.foldl_cons, ih, hf]
    simp [channelSum]
    ring

/-- Closed form of `get_mood_summary` on a non-empty list. -/
theorem get_mood_summary_eq (entries : List EntryRow) (h : ¬entries = []) :
    get_mood_summary entries = some
      { mood_averages :=
          { happiness := channelSum entries (fun e => e.happiness_score) / (entries.length : ℚ),
            sadness := channelSum entries (fun e => e.sadness_score) / (entries.length : ℚ),
            anger := channelSum entries (fun e => e.anger_score) / (entries.length : ℚ),
            fear := channelSum entries (fun e => e.fear_score) / (entries.length : ℚ),
            surprise := channelSum entries (fun e => e.surprise_score) / (entries.length : ℚ),
            disgust := channelSum entries (fun e => e.disgust_score) / (entries.length : ℚ) },
        sentiment_distribution := entries.foldl (fun c e => bumpCount c e.overall_sentiment)
          [(some "positive", 0), (some "negative", 0), (some "neutral", 0)],
        total_entries := entries.length } := by
  have h1 := foldl_moodStep_field MoodTotals.happiness (fun e => e.happiness_score)
    (fun t e => by simp [moodStep, addScore_eq]) entries ⟨0, 0, 0, 0, 0, 0⟩
  have h2 := foldl_moodStep_field MoodTotals.sadness (fun e => e.sadness_score)
    (fun t e => by simp [moodStep, addScore_eq]) entries ⟨0, 0, 0, 0, 0, 0⟩
  have h3 := foldl_moodStep_field MoodTotals.anger (fun e => e.anger_score)
    (fun t e => by simp [moodStep, addScore_eq]) entries ⟨0, 0, 0, 0, 0, 0⟩
  have h4 := foldl_moodStep_field MoodTotals.fear (fun e => e.fear_score)
    (fun t e => by simp [moodStep, addScore_eq]) entries ⟨0, 0, 0, 0, 0, 0⟩
  have h5 := foldl_moodStep_field MoodTotals.surprise (fun e => e.surprise_score)
    (fun t e => by simp [moodStep, addScore_eq]) entries ⟨0, 0, 0, 0, 0, 0⟩
  have h6 := foldl_moodStep_field MoodTotals.disgust (fun e => e.disgust_score)
    (fun t e => by simp [moodStep, addScore_eq]) entries ⟨0, 0, 0, 0, 0, 0⟩
  unfold get_mood_summary
  rw [if_neg h]
  simp only [h1, h2, h3, h4, h5, h6, zero_add]

theorem channelSum_map_double (entries : List EntryRow) (g : EntryRow → Option ℚ)
    (hg : ∀ e, g (doubleEntry e) = (g e).map (fun v => 2 * v)) :
    channelSum (entries.map doubleEntry) g = 2 * channelSum entries g := by
  unfold channelSum
  rw [List.map_map]
  have hpt : ∀ e, ((g (doubleEntry e)).getD 0) = 2 * ((g e).getD 0) := by
    intro e
    rw [hg]
    cases g e <;> simp
  induction entries with
  | nil => simp
  | cons e es ih =>
    simp only [List.map_cons, List.sum_cons, Function.comp] at ih ⊢
    rw [ih, hpt]
    ring

/-- C6: on a non-empty list of `N` entries each per-channel mood average is
exactly the sum of that channel's scores (a missing score contributing `0`
to the numerator while the entry still counts in the denominator) divided
by `N`; consequently doubling every input score doubles every average. -/
theorem get_mood_summary_average_spec (entries : List EntryRow)
    (h : entries ≠ []) :
    ∃ s s2, get_mood_summary entries = some s
    ∧ get_mood_summary (entries.map doubleEntry) = some s2
    ∧ s.total_entries = entries.length
    ∧ s.mood_averages.happiness
        = channelSum entries (fun e => e.happiness_score) / (entries.length : ℚ)
    ∧ s.mood_averages.sadness
        = channelSum entries (fun e => e.sadness_score) / (entries.length : ℚ)
    ∧ s.mood_averages.anger
        = channelSum entries (fun e => e.anger_score) / (entries.length : ℚ)
    ∧ s.mood_averages.fear
        = channelSum entries (fun e => e.fear_score) / (entries.length : ℚ)
    ∧ s.mood_averages.surprise
        = channelSum entries (fun e => e.surprise_score) / (entries.length : ℚ)
    ∧ s.mood_averages.disgust
        = channelSum entries (fun e => e.disgust_score) / (entries.length : ℚ)
    ∧ s2.mood_averages.happiness = 2 * s.mood_averages.happiness
    ∧ s2.mood_averages.sadness = 2 * s.mood_averages.sadness
    ∧ s2.mood_averages.anger = 2 * s.mood_averages.anger
    ∧ s2.mood_averages.fear = 2 * s.mood_averages.fear
    ∧ s2.mood_averages.surprise = 2 * s.mood_averages.surprise
    ∧ s2.mood_averages.disgust = 2 * s.mood_averages.disgust := by
  have h2 : ¬entries.map doubleEntry = [] := by
    simp [h]
  refine ⟨_, _, get_mood_summary_eq entries h, get_mood_summary_eq _ h2,
    rfl, rfl, rfl, rfl, rfl, rfl, rfl, ?_, ?_, ?_, ?_, ?_, ?_⟩
  all_goals
    dsimp only
    rw [channelSum_map_double _ _ (fun e => rfl)]
    try rw [List.length_map]
    exact mul_div_assoc ..

/-- A sample entry row for the concrete instances below: a single analyzed
entry with happiness score 1 and positive sentiment. -/
def sampleEntry : EntryRow :=
  { happiness_score := some 1, sadness_score := none, anger_score := none,
    fear_score := none, surprise_score := none, disgust_score := none,
    overall_sentiment := some "positive" }

/-- Concrete instance of C6 at the one-element list `[sampleEntry]`. -/
theorem get_mood_summary_average_spec_witness :
    ∃ s s2, get_mood_summary [sampleEntry] = some s
    ∧ get_mood_summary ([sampleEntry].map doubleEntry) = some s2
    ∧ s.total_entries = [sampleEntry].length
    ∧ s.mood_averages.happiness
        = channelSum [sampleEntry] (fun e => e.happiness_score) / ([sampleEntry].length : ℚ)
    ∧ s.mood_averages.sadness
        = channelSum [sampleEntry] (fun e => e.sadness_score) / ([sampleEntry].length : ℚ)
    ∧ s.mood_averages.anger
        = channelSum [sampleEntry] (fun e => e.anger_score) / ([sampleEntry].length : ℚ)
    ∧ s.mood_averages.fear
        = channelSum [sampleEntry] (fun e => e.fear_score) / ([sampleEntry].length : ℚ)
    ∧ s.mood_averages.surprise
        = channelSum [sampleEntry] (fun e => e.surprise_score) / ([sampleEntry].length : ℚ)
    ∧ s.mood_averages.disgust
        = channelSum [sampleEntry] (fun e => e.disgust_score) / ([sampleEntry].length : ℚ)
    ∧ s2.mood_averages.happiness = 2 * s.mood_averages.happiness
    ∧ s2.mood_averages.sadness = 2 * s.mood_averages.sadness
    ∧ s2.mood_averages.anger = 2 * s.mood_averages.anger
    ∧ s2.mood_averages.fear = 2 * s.mood_averages.fear
    ∧ s2.mood_averages.surprise = 2 * s.mood_averages.surprise
    ∧ s2.mood_averages.disgust = 2 * s.mood_averages.disgust :=
  get_mood_summary_average_spec [sampleEntry] (by decide)

/-- The summary `get_mood_summary` produces on `[sampleEntry]`. -/
def sampleSummary : MoodSummary :=
  { mood_averages :=
      { happiness := 1, sadness := 0, anger := 0, fear := 0,
        surprise := 0, disgust := 0 },
    sentiment_distribution :=
      [(some "positive", 1), (some "negative", 0), (some "neutral", 0)],
    total_entries := 1 }

/-- C7: on the empty entry list `get_mood_summary` returns `None` (and it
returns `None` only there), and every summary it does produce carries
`total_entries` equal to the positive entry count — the only divisor ever
used — so no division by zero can occur. -/
theorem get_mood_summary_empty_spec (entries : List EntryRow) (s : MoodSummary) :
    get_mood_summary [] = none
    ∧ (get_mood_summary entries = none ↔ entries = [])
    ∧ (get_mood_summary entries = some s →
        s.total_entries = entries.length ∧ 0 < s.total_entries) := by
  refine ⟨rfl, ?_, ?_⟩
  · by_cases h : entries = []
    · subst h
      simp [get_mood_summary]
    · rw [get_mood_summary_eq entries h]
      simp [h]
  · intro hs
    by_cases h : entries = []
    · subst h
      exact absurd hs (by simp [get_mood_summary])
    · rw [get_mood_summary_eq entries h] at hs
      have := Option.some_injective _ hs
      constructor
      · rw [← this]
      · rw [← this]
        exact List.length_pos.mpr h

/-- Concrete instance of C7: the summary on `[sampleEntry]` has
`total_entries = 1 > 0`. -/
theorem get_mood_summary_empty_spec_witness :
    sampleSummary.total_entries = [sampleEntry].length
    ∧ 0 < sampleSummary.total_entries :=
  (get_mood_summary_empty_spec [sampleEntry] sampleSummary).2.2 (by
    rw [get_mood_summary_eq _ (by decide)]
    norm_num [channelSum, sampleEntry, sampleSummary, bumpCount])

/-! ## Payments (`initialize_payment` and `verify_payment` handlers in
`app.py`)

The database is modelled as explicit lists of user and payment rows, the
Paystack gateway as a function argument, and timestamps as rationals
measured in days, so `timedelta(days=n)` is `+ n`. -/

structure UserRow where
  id : Nat
  email : String
  is_premium : Bool
  premium_since : Option ℚ
  premium_until : Option ℚ
deriving DecidableEq

structure PaymentRow where
  user_id : Nat
  reference : String
  amount : Int
  status : String
  plan_type : String
  verified_at : Option ℚ
  paystack_reference : Option String
deriving DecidableEq

structure DBState where
  users : List UserRow
  payments : List PaymentRow
deriving DecidableEq

/-- The observable actions of `initialize_payment`, in execution order:
the `paystack_service.initialize_transaction` call and the
`INSERT INTO payments ... 'pending'` statement. -/
inductive InitEvent where
  | gatewayInit (email : String) (amount : Int) (reference : String) : InitEvent
  | insertPending (user_id : Nat) (reference : String) (amount : Int)
      (plan_type : String) : InitEvent
deriving DecidableEq

inductive InitResult where
  | ok (reference : String) : InitResult
  | userNotFound : InitResult
  | serverError : InitResult
deriving DecidableEq

/-- The `initialize_payment` handler: look up the user (404 if absent),
price the plan (`yearly` → 2999900 kobo, anything else → 299900 kobo),
call the gateway, and only after the gateway call returns insert the
`pending` payment row. A raised gateway call is caught and becomes a 500
with no row inserted. `reference` stands for the generated
`moodjournal_<uuid4>` token. -/
def init_payment (st : DBState) (user_id : Nat) (plan_type0 : Option String)
    (gwOk : Bool) (reference : String) : DBState × List InitEvent × InitResult :=
  match st.users.find? (fun u => u.id == user_id) with
  | none => (st, [], .userNotFound)
  | some user =>
    let plan_type := plan_type0.getD "monthly"
    let amount : Int := if plan_type = "yearly" then 2999900 else 299900
    if gwOk then
      ({ st with payments := st.payments ++
          [{ user_id := user_id, reference := reference, amount := amount,
             status := "pending", plan_type := plan_type,
             verified_at := none, paystack_reference := none }] },
       [.gatewayInit user.email amount reference,
        .insertPending user_id reference amount plan_type],
       .ok reference)
    else
      (st, [.gatewayInit user.email amount reference], .serverError)

/-- The `data` object of the Paystack verification response. -/
structure GatewayTx where
  status : String
  amount : Int
  reference : String
deriving DecidableEq

inductive VerifyResult where
  | ok (premium_until : ℚ) : VerifyResult
  | missingReference : VerifyResult
  | failed (d : GatewayTx) : VerifyResult
  | serverError : VerifyResult
deriving DecidableEq

/-- The `WHERE reference = %s AND user_id = %s` filter used by both the
UPDATE and the SELECT in `verify_payment`. -/
def paymentMatches (reference : String) (user_id : Nat) (p : PaymentRow) : Bool :=
  p.reference == reference && p.user_id == user_id

/-- The row update `SET status = 'success', verified_at = NOW(),
amount = %s, paystack_reference = %s`. -/
def applyGatewaySuccess (d : GatewayTx) (now : ℚ) (p : PaymentRow) : PaymentRow :=
  { p with status := "success", verified_at := some now, amount := d.amount,
           paystack_reference := some d.reference }

/-- The user update `SET is_premium = TRUE, premium_since = %s,
premium_until = %s WHERE id = %s`. -/
def upgradeUser (now expires : ℚ) (user_id : Nat) (u : UserRow) : UserRow :=
  if u.id == user_id then
    { u with is_premium := true, premium_since := some now,
             premium_until := some expires }
  else u

/-- The `verify_payment` handler: reject a missing/empty reference (400);
call the gateway (a raise becomes a 500); on gateway status `success`
update the payment row filtered by `(reference, user_id)`, re-select it,
and if found compute `expires_at = now + 365` for a stored `yearly` plan
else `now + 30`, upgrade the user, and answer 200 with `premium_until`;
otherwise answer 400. -/
def verify_payment (st : DBState) (user_id : Nat) (reference : Option String)
    (gw : String → Option GatewayTx) (now : ℚ) : DBState × VerifyResult :=
  match reference with
  | none => (st, .missingReference)
  | some r =>
    if r = "" then (st, .missingReference)
    else
      match gw r with
      | none => (st, .serverError)
      | some d =>
        if d.status = "success" then
          let payments := st.payments.map
            (fun p => if paymentMatches r user_id p then applyGatewaySuccess d now p else p)
          match payments.find? (paymentMatches r user_id) with
          | some payment =>
            let expires := now + (if payment.plan_type = "yearly" then (365 : ℚ) else 30)
            ({ users := st.users.map (upgradeUser now expires user_id),
               payments := payments }, .ok expires)
          | none => ({ st with payments := payments }, .failed d)
        else (st, .failed d)

/-! ### Helper lemmas for the payment handlers -/

theorem find?_map_update (l : List PaymentRow) (pred : PaymentRow → Bool)
    (f : PaymentRow → PaymentRow) (hf : ∀ p, pred (f p) = pred p) :
    (l.map (fun p => if pred p then f p else p)).find? pred
      = (l.find? pred).map f := by
  induction l with
  | nil => rfl
  | cons p l ih =>
    by_cases hp : pred p
    · simp [List.find?_cons, hp, hf]
    · simp [List.find?_cons, hp, hf, ih]

theorem map_update_id (l : List PaymentRow) (pred : PaymentRow → Bool)
    (f : PaymentRow → PaymentRow) (h : ∀ p ∈ l, pred p = false) :
    l.map (fun p => if pred p then f p else p) = l := by
  induction l with
  | nil => rfl
  | cons p l ih =>
    rw [List.map_cons, if_neg (by simp [h p (List.mem_cons_self p l)]),
      ih (fun q hq => h q (List.mem_cons_of_mem p hq))]

theorem map_idem {α : Type} (f : α → α) (hf : ∀ x, f (f x) = f x)
    (l : List α) : (l.map f).map f = l.map f := by
  induction l with
  | nil => rfl
  | cons x l ih => simp only [List.map_cons, hf, ih]

/-- Closed form of `verify_payment` on the success path: the gateway
reports `success` and a payment row matching `(reference, user_id)`
exists. -/
theorem verify_payment_success_eq (st : DBState) (user_id : Nat) (r : String)
    (gw : String → Option GatewayTx) (now : ℚ) (d : GatewayTx) (p : PaymentRow)
    (hr : ¬r = "") (hgw : gw r = some d) (hds : d.status = "success")
    (hfind : st.payments.find? (paymentMatches r user_id) = some p) :
    verify_payment st user_id (some r) gw now =
      ({ users := st.users.map (upgradeUser now
            (now + (if p.plan_type = "yearly" then (365 : ℚ) else 30)) user_id),
         payments := st.payments.map (fun q =>
            if paymentMatches r user_id q then applyGatewaySuccess d now q else q) },
       .ok (now + (if p.plan_type = "yearly" then (365 : ℚ) else 30))) := by
  have hup : (st.payments.map (fun q =>
      if paymentMatches r user_id q then applyGatewaySuccess d now q else q)).find?
        (paymentMatches r user_id) = some (applyGatewaySuccess d now p) := by
    rw [find?_map_update st.payments (paymentMatches r user_id)
      (applyGatewaySuccess d now) (fun q => rfl), hfind]
    rfl
  simp only [verify_payment]
  rw [if_neg hr, hgw]
  dsimp only
  rw [if_pos hds, hup]
  rfl

/-! ## C5: successful verification upgrades the user -/

/-- C5: when the gateway reports success and a payment row for
`(reference, caller)` exists, `verify_payment` computes
`expires_at = now + 365` for a stored `yearly` plan and `now + 30`
otherwise, sets `is_premium = true`, `premium_since = now`,
`premium_until = expires_at` on the caller's user rows, and returns
`premium_until` in the success response. -/
theorem verify_payment_success_spec (st : DBState) (user_id : Nat) (r : String)
    (gw : String → Option GatewayTx) (now : ℚ) (d : GatewayTx) (p : PaymentRow)
    (hr : ¬r = "") (hgw : gw r = some d) (hds : d.status = "success")
    (hfind : st.payments.find? (paymentMatches r user_id) = some p) :
    (verify_payment st user_id (some r) gw now).2
      = .ok (now + (if p.plan_type = "yearly" then (365 : ℚ) else 30))
    ∧ ∀ u ∈ (verify_payment st user_id (some r) gw now).1.users,
        u.id = user_id →
          u.is_premium = true ∧ u.premium_since = some now
          ∧ u.premium_until
              = some (now + (if p.plan_type = "yearly" then (365 : ℚ) else 30)) := by
  have heq := verify_payment_success_eq st user_id r gw now d p hr hgw hds hfind
  constructor
  · rw [heq]
  · intro u hu hid
    rw [heq] at hu
    obtain ⟨v, _, rfl⟩ := List.mem_map.mp hu
    by_cases hb : (v.id == user_id) = true
    · unfold upgradeUser
      rw [if_pos hb]
      exact ⟨rfl, rfl, rfl⟩
    · exfalso
      unfold upgradeUser at hid
      rw [if_neg hb] at hid
      exact hb (by simp [hid])

/-- Sample rows for the concrete payment instances. -/
def wUser : UserRow :=
  { id := 7, email := "u@x.y", is_premium := false,
    premium_since := none, premium_until := none }

def wPayment : PaymentRow :=
  { user_id := 7, reference := "ref1", amount := 299900, status := "pending",
    plan_type := "monthly", verified_at := none, paystack_reference := none }

def wState : DBState := { users := [wUser], payments := [wPayment] }

/-- A gateway that reports every reference as a successful 299900-kobo
transaction. -/
def okGw : String → Option GatewayTx :=
  fun r => some { status := "success", amount := 299900, reference := r }

/-- Concrete instance of C5: verifying the pending monthly payment of user
7 at time 0. -/
theorem verify_payment_success_spec_witness :
    (verify_payment wState 7 (some "ref1") okGw 0).2
      = .ok (0 + (if wPayment.plan_type = "yearly" then (365 : ℚ) else 30))
    ∧ ∀ u ∈ (verify_payment wState 7 (some "ref1") okGw 0).1.users,
        u.id = 7 →
          u.is_premium = true ∧ u.premium_since = some 0
          ∧ u.premium_until
              = some (0 + (if wPayment.plan_type = "yearly" then (365 : ℚ) else 30)) :=
  verify_payment_success_spec wState 7 "ref1" okGw 0
    { status := "success", amount := 299900, reference := "ref1" } wPayment
    (by decide) rfl rfl (by decide)

/-! ## C4: cross-user verification is rejected without state change -/

/-- C4: when no payment row with the given reference belongs to the
caller, `verify_payment` answers with the 400 failure response and leaves
the whole database state — every payment row and every user row —
untouched, because both the UPDATE and the SELECT are filtered by
`(reference, user_id)`. -/
theorem verify_payment_cross_user_spec (st : DBState) (user_id : Nat)
    (r : String) (gw : String → Option GatewayTx) (now : ℚ) (d : GatewayTx)
    (hr : ¬r = "") (hgw : gw r = some d)
    (hother : ∀ p ∈ st.payments, p.reference = r → p.user_id ≠ user_id) :
    verify_payment st user_id (some r) gw now = (st, .failed d) := by
  have hmatch : ∀ p ∈ st.payments, paymentMatches r user_id p = false := by
    intro p hp
    unfold paymentMatches
    by_cases h1 : p.reference = r
    · simp [h1, hother p hp h1]
    · simp [h1]
  simp only [verify_payment, if_neg hr, hgw]
  by_cases hds : d.status = "success"
  · rw [if_pos hds, map_update_id _ _ _ hmatch,
      List.find?_eq_none.mpr (fun q hq => by simp [hmatch q hq])]
  · rw [if_neg hds]

/-- Concrete instance of C4: user 8 tries to verify user 7's reference
`ref1`; the call fails with a 400 and the state is returned unchanged. -/
theorem verify_payment_cross_user_spec_witness :
    verify_payment wState 8 (some "ref1") okGw 0
      = (wState, .failed { status := "success", amount := 299900, reference := "ref1" }) :=
  verify_payment_cross_user_spec wState 8 "ref1" okGw 0
    { status := "success", amount := 299900, reference := "ref1" }
    (by decide) rfl (by decide)

/-! ## C2: re-verification of an already-successful payment -/

theorem updRow_idem (d : GatewayTx) (now : ℚ) (r : String) (user_id : Nat)
    (q : PaymentRow) :
    (fun q => if paymentMatches r user_id q then applyGatewaySuccess d now q else q)
      ((fun q => if paymentMatches r user_id q then applyGatewaySuccess d now q else q) q)
    = (fun q => if paymentMatches r user_id q then applyGatewaySuccess d now q else q) q := by
  dsimp only
  by_cases h : paymentMatches r user_id q = true
  · have h2 : paymentMatches r user_id (applyGatewaySuccess d now q) = true := h
    rw [if_pos h, if_pos h2]
    rfl
  · simp [h]

theorem upgradeUser_idem (now e : ℚ) (uid : Nat) (u : UserRow) :
    upgradeUser now e uid (upgradeUser now e uid u) = upgradeUser now e uid u := by
  by_cases h : (u.id == uid) = true <;> simp [upgradeUser, h]

/-- C2 counterexample: re-verifying the already-verified reference `ref1`
at a later time returns a different result (`premium_until` 31 instead of
30) and moves the stored `premium_until` forward, so the second call is
neither a no-op nor a repeat of the first result. -/
theorem verify_payment_not_idempotent_cex :
    (verify_payment wState 7 (some "ref1") okGw 0).2 = VerifyResult.ok 30
    ∧ (verify_payment (verify_payment wState 7 (some "ref1") okGw 0).1
        7 (some "ref1") okGw 1).2 = VerifyResult.ok 31
    ∧ VerifyResult.ok (30 : ℚ) ≠ VerifyResult.ok (31 : ℚ)
    ∧ (verify_payment wState 7 (some "ref1") okGw 0).1.users.map
        (fun u => u.premium_until) = [some 30]
    ∧ (verify_payment (verify_payment wState 7 (some "ref1") okGw 0).1
        7 (some "ref1") okGw 1).1.users.map (fun u => u.premium_until)
      = [some 31] := by
  have h1 := verify_payment_success_eq wState 7 "ref1" okGw 0
    { status := "success", amount := 299900, reference := "ref1" } wPayment
    (by decide) rfl rfl (by decide)
  have hfind2 : (verify_payment wState 7 (some "ref1") okGw 0).1.payments.find?
      (paymentMatches "ref1" 7)
      = some (applyGatewaySuccess
          { status := "success", amount := 299900, reference := "ref1" } 0 wPayment) := by
    rw [h1]
    decide
  have h2 := verify_payment_success_eq (verify_payment wState 7 (some "ref1") okGw 0).1
    7 "ref1" okGw 1 { status := "success", amount := 299900, reference := "ref1" }
    (applyGatewaySuccess
      { status := "success", amount := 299900, reference := "ref1" } 0 wPayment)
    (by decide) rfl rfl hfind2
  have hpm : ¬wPayment.plan_type = "yearly" := by decide
  have hpm2 : ¬(applyGatewaySuccess
      { status := "success", amount := 299900, reference := "ref1" }
      0 wPayment).plan_type = "yearly" := by decide
  refine ⟨?_, ?_, ?_, ?_, ?_⟩
  · rw [h1, if_neg hpm]
    norm_num
  · rw [h2, if_neg hpm2]
    norm_num
  · intro hc
    exact absurd (VerifyResult.ok.inj hc) (by norm_num)
  · rw [h1, if_neg hpm]
    norm_num [wState, wUser, wPayment, upgradeUser]
  · rw [h2, if_neg hpm2, h1, if_neg hpm]
    norm_num [wState, wUser, wPayment, upgradeUser, applyGatewaySuccess]

/-- C2 (amended): re-verifying an already-`success` reference re-runs the
whole success path — it recomputes `premium_until = now + plan period`
from the time of the call rather than returning the stored result — so
the outcome repeats the first one exactly when the timestamps coincide:
at a fixed `now`, verification is idempotent on both the state and the
response. -/
theorem verify_payment_reverify_spec (st : DBState) (user_id : Nat)
    (r : String) (gw : String → Option GatewayTx) (now : ℚ) (d : GatewayTx)
    (p : PaymentRow)
    (hr : ¬r = "") (hgw : gw r = some d) (hds : d.status = "success")
    (hfind : st.payments.find? (paymentMatches r user_id) = some p)
    (_hsucc : p.status = "success") :
    (verify_payment st user_id (some r) gw now).2
      = .ok (now + (if p.plan_type = "yearly" then (365 : ℚ) else 30))
    ∧ verify_payment (verify_payment st user_id (some r) gw now).1
        user_id (some r) gw now
      = verify_payment st user_id (some r) gw now := by
  have h1 := verify_payment_success_eq st user_id r gw now d p hr hgw hds hfind
  have hfind2 : (verify_payment st user_id (some r) gw now).1.payments.find?
      (paymentMatches r user_id) = some (applyGatewaySuccess d now p) := by
    rw [h1]
    rw [find?_map_update st.payments (paymentMatches r user_id)
      (applyGatewaySuccess d now) (fun q => rfl), hfind]
    rfl
  have h2 := verify_payment_success_eq (verify_payment st user_id (some r) gw now).1
    user_id r gw now d (applyGatewaySuccess d now p) hr hgw hds hfind2
  simp only [show (applyGatewaySuccess d now p).plan_type = p.plan_type from rfl] at h2
  refine ⟨by rw [h1], ?_⟩
  rw [h2, h1]
  rw [map_idem (upgradeUser now
      (now + (if p.plan_type = "yearly" then (365 : ℚ) else 30)) user_id)
      (upgradeUser_idem now _ user_id) st.users,
    map_idem (fun q =>
      if paymentMatches r user_id q then applyGatewaySuccess d now q else q)
      (updRow_idem d now r user_id) st.payments]

/-- An already-verified payment row and its premium user, for the concrete
instance of C2 (amended). -/
def wPaymentDone : PaymentRow :=
  { user_id := 7, reference := "ref1", amount := 299900, status := "success",
    plan_type := "monthly", verified_at := some 0,
    paystack_reference := some "ref1" }

def wStateDone : DBState :=
  { users := [{ id := 7, email := "u@x.y", is_premium := true,
                premium_since := some 0, premium_until := some 30 }],
    payments := [wPaymentDone] }

/-- Concrete instance of C2 (amended): re-verifying `ref1` at time 5. -/
theorem verify_payment_reverify_spec_witness :
    (verify_payment wStateDone 7 (some "ref1") okGw 5).2
      = .ok (5 + (if wPaymentDone.plan_type = "yearly" then (365 : ℚ) else 30))
    ∧ verify_payment (verify_payment wStateDone 7 (some "ref1") okGw 5).1
        7 (some "ref1") okGw 5
      = verify_payment wStateDone 7 (some "ref1") okGw 5 :=
  verify_payment_reverify_spec wStateDone 7 "ref1" okGw 5
    { status := "success", amount := 299900, reference := "ref1" } wPaymentDone
    (by decide) rfl rfl (by decide) rfl

/-! ## C9: order of gateway call and pending-row insert in
`initialize_payment` -/

def isInsertEvent : InitEvent → Bool
  | .insertPending _ _ _ _ => true
  | _ => false

def isGatewayEvent : InitEvent → Bool
  | .gatewayInit _ _ _ => true
  | _ => false

/-- C9 counterexample: initializing a yearly payment for user 7 emits the
gateway call first and the pending-row insert second, so the insert does
not precede the gateway call — when the gateway is contacted no local row
for the reference exists yet. -/
theorem init_payment_row_before_gateway_cex :
    (init_payment wState 7 (some "yearly") true "ref9").2.1
      = [InitEvent.gatewayInit "u@x.y" 2999900 "ref9",
         InitEvent.insertPending 7 "ref9" 2999900 "yearly"]
    ∧ ¬((init_payment wState 7 (some "yearly") true "ref9").2.1.findIdx isInsertEvent
        < (init_payment wState 7 (some "yearly") true "ref9").2.1.findIdx
            isGatewayEvent) := by
  decide

/-- C9 (amended): `initialize_payment` contacts the gateway first and
persists the `pending` row only afterwards, and only when the gateway call
returns; when the gateway call raises, no row is inserted and the state is
unchanged. -/
theorem init_payment_order_spec (st : DBState) (uid : Nat)
    (plan : Option String) (gwOk : Bool) (ref : String) (u : UserRow)
    (hu : st.users.find? (fun v => v.id == uid) = some u) :
    ((init_payment st uid plan gwOk ref).2.1.head?
      = some (.gatewayInit u.email
          (if plan.getD "monthly" = "yearly" then 2999900 else 299900) ref))
    ∧ ((init_payment st uid plan gwOk ref).2.1.findIdx isGatewayEvent = 0)
    ∧ (gwOk = true →
        (init_payment st uid plan gwOk ref).2.1
          = [.gatewayInit u.email
               (if plan.getD "monthly" = "yearly" then 2999900 else 299900) ref,
             .insertPending uid ref
               (if plan.getD "monthly" = "yearly" then 2999900 else 299900)
               (plan.getD "monthly")]
        ∧ (init_payment st uid plan gwOk ref).1.payments
          = st.payments ++
              [{ user_id := uid, reference := ref,
                 amount := (if plan.getD "monthly" = "yearly" then 2999900 else 299900),
                 status := "pending", plan_type := plan.getD "monthly",
                 verified_at := none, paystack_reference := none }])
    ∧ (gwOk = false →
        (init_payment st uid plan gwOk ref).2.1
          = [.gatewayInit u.email
               (if plan.getD "monthly" = "yearly" then 2999900 else 299900) ref]
        ∧ (init_payment st uid plan gwOk ref).1 = st) := by
  cases gwOk with
  | true => simp [init_payment, hu, isGatewayEvent, List.findIdx_cons]
  | false => simp [init_payment, hu, isGatewayEvent, List.findIdx_cons]

/-- Concrete instance of C9 (amended): a failed gateway call for user 7
leaves the database without a pending row. -/
theorem init_payment_order_spec_witness :
    ((init_payment wState 7 (some "monthly") false "ref9").2.1.head?
      = some (.gatewayInit wUser.email
          (if (some "monthly").getD "monthly" = "yearly" then 2999900 else 299900)
          "ref9"))
    ∧ ((init_payment wState 7 (some "monthly") false "ref9").2.1.findIdx
        isGatewayEvent = 0)
    ∧ (false = true →
        (init_payment wState 7 (some "monthly") false "ref9").2.1
          = [.gatewayInit wUser.email
               (if (some "monthly").getD "monthly" = "yearly" then 2999900 else 299900)
               "ref9",
             .insertPending 7 "ref9"
               (if (some "monthly").getD "monthly" = "yearly" then 2999900 else 299900)
               ((some "monthly").getD "monthly")]
        ∧ (init_payment wState 7 (some "monthly") false "ref9").1.payments
          = wState.payments ++
              [{ user_id := 7, reference := "ref9",
                 amount := (if (some "monthly").getD "monthly" = "yearly" then 2999900 else 299900),
                 status := "pending", plan_type := (some "monthly").getD "monthly",
                 verified_at := none, paystack_reference := none }])
    ∧ (false = false →
        (init_payment wState 7 (some "monthly") false "ref9").2.1
          = [.gatewayInit wUser.email
               (if (some "monthly").getD "monthly" = "yearly" then 2999900 else 299900)
               "ref9"]
        ∧ (init_payment wState 7 (some "monthly") false "ref9").1 = wState) :=
  init_payment_order_spec wState 7 (some "monthly") false "ref9" wUser (by decide)

/-! ## C10: plan-type handling is total and verbatim -/

/-- C10: initialization prices exactly the string `yearly` at the yearly
tier and every other plan value (including the defaulted `monthly`) at the
monthly tier, stores the plan string verbatim in the pending row, and
never rejects a plan value; symmetrically, verification grants 365 days
only for a stored `yearly` plan and 30 days for anything else. -/
theorem plan_type_spec (st : DBState) (uid : Nat) (plan : Option String)
    (ref : String) (u : UserRow)
    (hu : st.users.find? (fun v => v.id == uid) = some u)
    (st2 : DBState) (uid2 : Nat) (r : String) (gw : String → Option GatewayTx)
    (now : ℚ) (d : GatewayTx) (p : PaymentRow)
    (hr : ¬r = "") (hgw : gw r = some d) (hds : d.status = "success")
    (hfind : st2.payments.find? (paymentMatches r uid2) = some p) :
    (¬plan.getD "monthly" = "yearly" →
      (init_payment st uid plan true ref).1.payments
        = st.payments ++
            [{ user_id := uid, reference := ref, amount := 299900,
               status := "pending", plan_type := plan.getD "monthly",
               verified_at := none, paystack_reference := none }])
    ∧ (plan.getD "monthly" = "yearly" →
      (init_payment st uid plan true ref).1.payments
        = st.payments ++
            [{ user_id := uid, reference := ref, amount := 2999900,
               status := "pending", plan_type := "yearly",
               verified_at := none, paystack_reference := none }])
    ∧ (init_payment st uid plan true ref).2.2 = .ok ref
    ∧ (¬p.plan_type = "yearly" →
        (verify_payment st2 uid2 (some r) gw now).2 = .ok (now + 30))
    ∧ (p.plan_type = "yearly" →
        (verify_payment st2 uid2 (some r) gw now).2 = .ok (now + 365)) := by
  have hv := verify_payment_success_eq st2 uid2 r gw now d p hr hgw hds hfind
  refine ⟨?_, ?_, ?_, ?_, ?_⟩
  · intro hp
    simp [init_payment, hu, hp]
  · intro hp
    simp [init_payment, hu, hp]
  · simp [init_payment, hu]
  · intro hp
    rw [hv]
    simp [hp]
  · intro hp
    rw [hv]
    simp [hp]

/-- Concrete instance of C10: an unrecognized plan string `"weekly"` is
priced at the monthly tier, stored verbatim, and accepted; verifying the
stored monthly payment grants 30 days. -/
theorem plan_type_spec_witness :
    (¬(some "weekly").getD "monthly" = "yearly" →
      (init_payment wState 7 (some "weekly") true "ref9").1.payments
        = wState.payments ++
            [{ user_id := 7, reference := "ref9", amount := 299900,
               status := "pending", plan_type := (some "weekly").getD "monthly",
               verified_at := none, paystack_reference := none }])
    ∧ ((some "weekly").getD "monthly" = "yearly" →
      (init_payment wState 7 (some "weekly") true "ref9").1.payments
        = wState.payments ++
            [{ user_id := 7, reference := "ref9", amount := 2999900,
               status := "pending", plan_type := "yearly",
               verified_at := none, paystack_reference := none }])
    ∧ (init_payment wState 7 (some "weekly") true "ref9").2.2 = .ok "ref9"
    ∧ (¬wPayment.plan_type = "yearly" →
        (verify_payment wState 7 (some "ref1") okGw 0).2 = .ok (0 + 30))
    ∧ (wPayment.plan_type = "yearly" →
        (verify_payment wState 7 (some "ref1") okGw 0).2 = .ok (0 + 365)) :=
  plan_type_spec wState 7 (some "weekly") "ref9" wUser (by decide)
    wState 7 "ref1" okGw 0
    { status := "success", amount := 299900, reference := "ref1" } wPayment
    (by decide) rfl rfl (by decide)

end MoodTracker
